import Mathlib

/-!
Shallow embedding of the micro-rdk cloud client and server bootstrap
(src/esp32/robot_client.rs and examples/esp32.rs), used to check the
natural-language specification against the code.

Protobuf encoding itself is out of scope of the spec; encoded payloads are
abstract byte lists. Bytes are modelled as Nat (values below 256 where the
code writes literal bytes).
-/

namespace MicroRdk

/-! ### gRPC body framing (robot_client.rs, read_config and request_jwt_token)

The Rust code builds the outbound body as

  buf.put_u8(0);
  buf.put_u32(req.encoded_len().try_into()?);
  let mut msg = buf.split_off(5);
  req.encode(&mut msg)?;
  buf.unsplit(msg);

so the body is one zero byte, the 4-byte big-endian length, then the
payload. The try_into from usize to u32 fails exactly when the value
exceeds u32::MAX. -/

/-- big-endian 4-byte encoding of a natural number, as put_u32 writes it -/
def be32 (n : Nat) : List Nat :=
  [n / 2 ^ 24 % 256, n / 2 ^ 16 % 256, n / 2 ^ 8 % 256, n % 256]

/-- value of a big-endian 4-byte field, as a reader of the frame sees it -/
def be32val (b : List Nat) : Nat :=
  ((b.headD 0 * 256 + (b.drop 1).headD 0) * 256 + (b.drop 2).headD 0) * 256
    + (b.drop 3).headD 0

/-- frame construction from read_config / request_jwt_token: flag byte 0,
big-endian length from try_into (error when the length exceeds u32::MAX),
then the encoded payload -/
def frameBody (payload : List Nat) : Except String (List Nat) :=
  if payload.length < 2 ^ 32 then
    .ok (0 :: be32 payload.length ++ payload)
  else
    .error "TryFromIntError"

theorem be32_length (n : Nat) : (be32 n).length = 4 := rfl

theorem be32val_be32 (n : Nat) (h : n < 2 ^ 32) : be32val (be32 n) = n := by
  simp only [be32, be32val, List.headD, List.drop]
  omega

/-! ### Request construction (robot_client.rs, build_request)

The builder sets method POST, the absolute URI obtained by appending the
path to the app.viam.com origin, three fixed headers, and the
authorization header exactly when self.jwt is Some. -/

structure Header where
  hname : String
  hvalue : String
deriving DecidableEq, Repr

structure BuiltRequest where
  method : String
  uri : String
  headers : List Header
deriving DecidableEq, Repr

/-- build_request from robot_client.rs: the jwt argument is the value of
self.jwt at the time the request is built -/
def build_request (jwt : Option String) (path : String) : BuiltRequest :=
  { method := "POST"
    uri := "https://app.viam.com:443" ++ path
    headers :=
      [⟨"content-type", "application/grpc"⟩, ⟨"te", "trailers"⟩,
        ⟨"user-agent", "esp32"⟩] ++
        match jwt with
        | some j => [⟨"authorization", j⟩]
        | none => [] }

/-- test whether a built request carries a header with the given name -/
def hasHeader (r : BuiltRequest) (n : String) : Bool :=
  r.headers.any fun h => h.hname = n

/-! ### Client state (robot_client.rs, RobotClient)

Only the jwt field evolves over the exchanges; the other fields are the
executor and HTTP/2 plumbing, out of scope here. RobotClient::new sets jwt
to None; request_jwt_token overwrites it with "Bearer " plus the access
token of a successfully decoded AuthenticateResponse and leaves it
untouched when the exchange fails; no other method writes jwt. -/

structure RobotClientState where
  jwt : Option String
deriving DecidableEq, Repr

/-- RobotClient::new from robot_client.rs: jwt starts as None -/
def RobotClientState.new : RobotClientState := ⟨none⟩

/-- one observable step of the client, abstracting the network: authOk
carries the access_token of a decoded AuthenticateResponse, authFail is a
failed Authenticate exchange, configExchange is read_config, buildReq and
sendReq are the request plumbing -/
inductive ClientStep where
  | authOk (accessToken : String)
  | authFail
  | configExchange
  | buildReq (path : String)
  | sendReq
deriving DecidableEq, Repr

/-- effect of each step on the jwt field, read off robot_client.rs: only a
successful request_jwt_token writes it -/
def stepJwt : RobotClientState → ClientStep → RobotClientState
  | _, .authOk tok => ⟨some ("Bearer " ++ tok)⟩
  | s, .authFail => s
  | s, .configExchange => s
  | s, .buildReq _ => s
  | s, .sendReq => s

/-! ### Request flow with framing (read_config / request_jwt_token)

Both functions build the request, then build the framed body, then call
send_request; a framing error propagates with the question-mark operator
before send_request is reached, so nothing is sent. The encoded protobuf
payload is an abstract byte list. -/

/-- requests actually handed to send_request by one exchange, or the error
that stopped the exchange before any send -/
def requestFlow (jwt : Option String) (path : String) (encodedPayload : List Nat) :
    Except String (List (BuiltRequest × List Nat)) :=
  match frameBody encodedPayload with
  | .error e => .error e
  | .ok body => .ok [(build_request jwt path, body)]

/-! ### Event traces of the two tasks

The main task (examples/esp32.rs: main and runserver) and the cloud client
task (robot_client.rs: client_entry and clientloop) are modelled as the
sequences of observable events their straight-line code performs, read off
the source in program order. -/

/-- observable events of the main task and the cloud client task -/
inductive Ev where
  | logClientStartError
  | mdnsStart
  | bindListener
  | notifyClientTask (v : Nat)
  | delayTicks (n : Nat)
  | logNotifyFailed
  | logNoHandle
  | accept
  | serveConnection
  | tlsOpen
  | h2Handshake
  | authExchange
  | configExchange
  | waitNotif (timeoutSecs : Nat) (got : Option Nat)
  | logStopClient
  | logClientError
  | notifyMain (v : Nat)
  | taskDelete
deriving DecidableEq, Repr

/-- trace of runserver from examples/esp32.rs up to and including the first
accepted and served connection: bind the listener, then notify the client
task with value 1 and delay 1000 ticks when a handle exists (log on a
failed notify, log when there is no handle), then enter the accept loop.
The hnd argument is the client task handle passed in from main; notifyOk
is the boolean returned by the notify call -/
def runserverTrace (hnd : Option Unit) (notifyOk : Bool) : List Ev :=
  [.bindListener] ++
    (match hnd with
      | some _ => if notifyOk then [.notifyClientTask 1, .delayTicks 1000]
                  else [.logNotifyFailed]
      | none => [.logNoHandle]) ++
    [.accept, .serveConnection]

/-- trace of main from examples/esp32.rs after the registry is built: on a
failed robot_client start the error is logged and the handle is None, then
mdns is set up, then runserver runs with whatever handle exists -/
def mainTrace (startOk : Bool) (notifyOk : Bool) : List Ev :=
  (if startOk then [] else [.logClientStartError]) ++ [.mdnsStart] ++
    runserverTrace (if startOk then some () else none) notifyOk

/-- outcome of one run of clientloop, naming the step at which it failed,
if any -/
inductive LoopOutcome where
  | okBootstrap
  | failTls
  | failHandshake
  | failAuth
  | failConfig
deriving DecidableEq, Repr

/-- bootstrap events of clientloop in program order, cut off at the failing
step: open the TLS connection, HTTP/2 handshake, request_jwt_token,
read_config -/
def bootstrapEvents : LoopOutcome → List Ev
  | .failTls => [.tlsOpen]
  | .failHandshake => [.tlsOpen, .h2Handshake]
  | .failAuth => [.tlsOpen, .h2Handshake, .authExchange]
  | .failConfig => [.tlsOpen, .h2Handshake, .authExchange, .configExchange]
  | .okBootstrap => [.tlsOpen, .h2Handshake, .authExchange, .configExchange]

/-- whether clientloop returns an error for the given outcome -/
def loopErr : LoopOutcome → Bool
  | .okBootstrap => false
  | _ => true

/-- the wait loop at the end of clientloop: wait_notification with a 30
second timeout, repeated until a notification arrives, then log and break.
The argument lists the successive results the platform delivers; the
boolean records whether the loop exited within that list -/
def waitLoopTrace : List (Option Nat) → List Ev × Bool
  | [] => ([], false)
  | o :: rest =>
    match o with
    | some v => ([.waitNotif 30 (some v), .logStopClient], true)
    | none =>
      let t := waitLoopTrace rest
      (.waitNotif 30 none :: t.1, t.2)

/-- trace of clientloop from robot_client.rs: the bootstrap exchanges, then
the wait loop exactly when bootstrap succeeded and no main handle was set.
The boolean records whether clientloop returned (a failing bootstrap and a
set main handle both return at once) -/
def clientloopTrace (out : LoopOutcome) (mainHandleSet : Bool)
    (waits : List (Option Nat)) : List Ev × Bool :=
  if out = .okBootstrap ∧ mainHandleSet = false then
    let t := waitLoopTrace waits
    (bootstrapEvents out ++ t.1, t.2)
  else
    (bootstrapEvents out, true)

/-- trace of client_entry from robot_client.rs: run clientloop, log its
error if it failed, notify the main handle with value 0 when one was set,
then delete the task. The boolean records whether the task reached
deletion (false when clientloop never returns) -/
def clientEntryTrace (out : LoopOutcome) (mainHandleSet : Bool)
    (waits : List (Option Nat)) : List Ev × Bool :=
  let t := clientloopTrace out mainHandleSet waits
  if t.2 then
    (t.1 ++ (if loopErr out then [.logClientError] else []) ++
      (if mainHandleSet then [.notifyMain 0] else []) ++ [.taskDelete], true)
  else
    (t.1, false)

/-- whether an event is a wait on the task-notify rendezvous -/
def isWaitEv : Ev → Bool
  | .waitNotif _ _ => true
  | _ => false

/-- whether some rendezvous wait occurs strictly before the first accept in
a trace -/
def waitsBeforeFirstAccept : List Ev → Bool
  | [] => false
  | e :: rest =>
    if isWaitEv e then (e :: rest).any (fun x => x = .accept)
    else if e = .accept then false
    else waitsBeforeFirstAccept rest

/-- interleaving of two task traces: zs is a merge of xs and ys that keeps
the order of each -/
def interleaves : List Ev → List Ev → List Ev → Bool
  | xs, ys, [] => xs.isEmpty && ys.isEmpty
  | xs, ys, z :: zs =>
    (match xs with
      | x :: xs' => x = z && interleaves xs' ys (z :: zs).tail
      | [] => false) ||
    (match ys with
      | y :: ys' => y = z && interleaves xs ys' (z :: zs).tail
      | [] => false)

/-- index of the first occurrence of an event in a trace, or the length
when absent -/
def firstIdx (t : List Ev) (e : Ev) : Nat := t.takeWhile (fun x => x ≠ e) |>.length

/-- whether an event is a notify aimed at the main task -/
def isNotifyMainEv : Ev → Bool
  | .notifyMain _ => true
  | _ => false

/-- one concrete interleaving of the main task and the client task in which
the first connection is served while the client is still between its
Authenticate and Config exchanges -/
def mergedBootstrapRace : List Ev :=
  [.tlsOpen, .h2Handshake, .authExchange, .mdnsStart, .bindListener,
    .notifyClientTask 1, .delayTicks 1000, .accept, .serveConnection,
    .configExchange, .waitNotif 30 (some 1), .logStopClient, .taskDelete]

/-! ### Resource registry (examples/esp32.rs, qemu build)

The qemu block of main builds a ResourceMap (a HashMap) and inserts a fake
motor named m1, a fake board named b and a fake base named base; there is
no second motor in this block (the hardware block also inserts motor m2).
HashMap insertion replaces an existing entry with the same key. -/

structure ResourceName where
  /-- the Rust field named namespace -/
  nspace : String
  /-- the Rust field named r#type -/
  rtype : String
  subtype : String
  name : String
deriving DecidableEq, Repr

/-- the ResourceType tag from esp32/robot.rs as used by the example; the
driver handles themselves are out of scope -/
inductive ResourceType where
  | Motor
  | Board
  | Base
  | Camera
deriving DecidableEq, Repr

/-- HashMap insert on an association list: replace the entry with an equal
key, append otherwise -/
def insertRes (m : List (ResourceName × ResourceType)) (k : ResourceName)
    (v : ResourceType) : List (ResourceName × ResourceType) :=
  if m.any (fun p => p.1 = k) then
    m.map (fun p => if p.1 = k then (k, v) else p)
  else
    m ++ [(k, v)]

/-- the registry the qemu build of main constructs, insertion for
insertion (camera feature off) -/
def qemuRegistry : List (ResourceName × ResourceType) :=
  insertRes
    (insertRes
      (insertRes [] ⟨"rdk", "component", "motor", "m1"⟩ .Motor)
      ⟨"rdk", "component", "board", "b"⟩ .Board)
    ⟨"rdk", "component", "base", "base"⟩ .Base

/-- ResourceNamesResponse from gen/viam.robot.v1.rs: a repeated field of
resource names -/
structure ResourceNamesResponse where
  resources : List ResourceName
deriving DecidableEq, Repr

/-- Modelled from the spec: the ResourceNames handler of the gRPC server
(esp32/grpc.rs is not among the provided sources); per the spec it scans
the registry, returns every resource name, and closes with grpc-status 0. -/
def resourceNames (reg : List (ResourceName × ResourceType)) :
    ResourceNamesResponse × Nat :=
  (⟨reg.map fun p => p.1⟩, 0)

/-! ## Helper lemmas -/

theorem be32val_append (n : Nat) (p : List Nat) :
    be32val (be32 n ++ p) = be32val (be32 n) := rfl

theorem waitLoop_no_notifyMain (waits : List (Option Nat)) :
    (waitLoopTrace waits).1.all (fun e => !(isNotifyMainEv e)) = true := by
  induction waits with
  | nil => rfl
  | cons o rest ih =>
    cases o with
    | some v => rfl
    | none => simpa [waitLoopTrace, isNotifyMainEv] using ih

theorem waitLoop_replicate (k v : Nat) (rest : List (Option Nat)) :
    waitLoopTrace (List.replicate k none ++ some v :: rest) =
      (List.replicate k (Ev.waitNotif 30 none) ++
        [Ev.waitNotif 30 (some v), Ev.logStopClient], true) := by
  induction k with
  | zero => rfl
  | succ n ih => simp [List.replicate_succ, waitLoopTrace, ih]

theorem clientEntry_ok_nohandle_all (waits : List (Option Nat)) :
    (clientEntryTrace .okBootstrap false waits).1.all
      (fun e => !(isNotifyMainEv e)) = true := by
  have hwl := waitLoop_no_notifyMain waits
  have hshape : clientEntryTrace .okBootstrap false waits =
      if (waitLoopTrace waits).2 = true then
        ((bootstrapEvents .okBootstrap ++ (waitLoopTrace waits).1) ++ [] ++ []
          ++ [.taskDelete], true)
      else (bootstrapEvents .okBootstrap ++ (waitLoopTrace waits).1, false) := rfl
  rw [hshape]
  split <;> simp_all [List.all_append, bootstrapEvents, isNotifyMainEv]

theorem requestFlow_eq (jwt : Option String) (path : String) (p : List Nat) :
    requestFlow jwt path p =
      (if p.length < 2 ^ 32 then
        .ok [(build_request jwt path, 0 :: be32 p.length ++ p)]
      else .error "TryFromIntError") := by
  unfold requestFlow frameBody
  by_cases h : p.length < 2 ^ 32
  · rw [if_pos h, if_pos h]
  · rw [if_neg h, if_neg h]

/-! ## Claim theorems -/

/-- Claim C1, as stated, is false on the code: runserver never waits on the
rendezvous before its first accept (its trace holds no wait event at all),
and there is an interleaving of the two tasks in which the first request is
served while the client task is still between its Authenticate and Config
exchanges, hence during bootstrap I/O and before any client-side notify. -/
theorem main_no_rendezvous_wait_cx :
    waitsBeforeFirstAccept (mainTrace true true) = false ∧
    (mainTrace true true).all (fun e => !(isWaitEv e)) = true ∧
    interleaves (mainTrace true true)
      (clientEntryTrace .okBootstrap false [some 1]).1 mergedBootstrapRace = true ∧
    firstIdx mergedBootstrapRace .serveConnection <
      firstIdx mergedBootstrapRace .configExchange := by
  decide

/-- Claim C1 amended: the main server task does not wait on the rendezvous
before accept; for every handle configuration its trace holds no rendezvous
wait, when a client handle exists it notifies the client task with value 1
and delays 1000 ticks before the first accept, and there is an execution in
which the first served request occurs during bootstrap I/O, before the
Config exchange completes. -/
theorem bootstrap_order_actual (hnd : Option Unit) (notifyOk : Bool) :
    waitsBeforeFirstAccept (runserverTrace hnd notifyOk) = false ∧
    (runserverTrace hnd notifyOk).all (fun e => !(isWaitEv e)) = true ∧
    runserverTrace (some ()) true =
      [.bindListener, .notifyClientTask 1, .delayTicks 1000, .accept,
        .serveConnection] ∧
    interleaves (mainTrace true true)
      (clientEntryTrace .okBootstrap false [some 1]).1 mergedBootstrapRace = true ∧
    firstIdx mergedBootstrapRace .serveConnection <
      firstIdx mergedBootstrapRace .configExchange := by
  cases hnd with
  | none => cases notifyOk <;> decide
  | some u => cases u; cases notifyOk <;> decide

/-- Claim C2, as stated, is false on the code: on the successful bootstrap
path the client task never sends a notify with value 1 (with a main handle
set the only notify it sends is value 0 on exit; with no main handle it
sends none at all). -/
theorem client_notify_one_cx :
    (clientEntryTrace .okBootstrap true []).1.all
      (fun e => !(e = Ev.notifyMain 1)) = true ∧
    (clientEntryTrace .okBootstrap false [some 1]).1.all
      (fun e => !(isNotifyMainEv e)) = true := by
  decide

/-- Claim C2 amended: the value-1 notify is sent by the main task to the
client task before the accept loop, not by the client task after Config;
every notify the client task sends toward the main task carries value 0 and
happens only when a main handle was set. -/
theorem rendezvous_notify_direction (out : LoopOutcome) (hset : Bool)
    (waits : List (Option Nat)) :
    Ev.notifyClientTask 1 ∈ runserverTrace (some ()) true ∧
    (clientEntryTrace out hset waits).1.all
      (fun e => !(isNotifyMainEv e) || (decide (e = Ev.notifyMain 0) && hset))
      = true := by
  refine ⟨by decide, ?_⟩
  cases hset with
  | false =>
    cases out with
    | okBootstrap =>
      have h := clientEntry_ok_nohandle_all waits
      rw [List.all_eq_true] at h ⊢
      intro e he
      have he2 := h e he
      simp only [Bool.and_false, Bool.or_false]
      exact he2
    | failTls => rfl
    | failHandshake => rfl
    | failAuth => rfl
    | failConfig => rfl
  | true => cases out <;> rfl

/-- Claim C3: for every encoded request payload that fits a u32 length, the
outbound gRPC body is exactly the zero flag byte, the 4-byte big-endian
length, then the payload: total length 5 plus the payload length, first
byte 0, and the big-endian field reads back as the payload length. -/
theorem framing_exact (p : List Nat) (h : p.length < 2 ^ 32) :
    frameBody p = .ok (0 :: be32 p.length ++ p) ∧
    (0 :: be32 p.length ++ p).length = 5 + p.length ∧
    (0 :: be32 p.length ++ p).headD 1 = 0 ∧
    be32val ((0 :: be32 p.length ++ p).drop 1) = p.length := by
  refine ⟨by unfold frameBody; rw [if_pos h],
    by simp only [be32, List.length_append, List.length_cons, List.length_nil],
    rfl, ?_⟩
  have hd : (0 :: be32 p.length ++ p).drop 1 = be32 p.length ++ p := rfl
  rw [hd, be32val_append, be32val_be32 _ h]

/-- Witness for the framing theorem at the concrete payload [7, 8]. -/
theorem framing_exact_witness :
    ([7, 8] : List Nat).length < 2 ^ 32 ∧
    (frameBody [7, 8] = .ok (0 :: be32 ([7, 8] : List Nat).length ++ [7, 8]) ∧
     (0 :: be32 ([7, 8] : List Nat).length ++ [7, 8]).length =
       5 + ([7, 8] : List Nat).length ∧
     (0 :: be32 ([7, 8] : List Nat).length ++ [7, 8]).headD 1 = 0 ∧
     be32val ((0 :: be32 ([7, 8] : List Nat).length ++ [7, 8]).drop 1) =
       ([7, 8] : List Nat).length) :=
  ⟨by decide, framing_exact [7, 8] (by decide)⟩

/-- Claim C4: jwt is None before authentication, a successful Authenticate
stores the Bearer-prefixed access token, and no step ever clears a stored
jwt back to None. -/
theorem jwt_lifecycle (s : RobotClientState) (st : ClientStep) (tok : String)
    (h : s.jwt ≠ none) :
    RobotClientState.new.jwt = none ∧
    (stepJwt s (.authOk tok)).jwt = some ("Bearer " ++ tok) ∧
    (stepJwt s st).jwt ≠ none := by
  refine ⟨rfl, rfl, ?_⟩
  cases st <;> simp [stepJwt] <;> exact h

/-- Witness for the jwt lifecycle theorem at a concrete authenticated
state and step. -/
theorem jwt_lifecycle_witness :
    (⟨some "Bearer x"⟩ : RobotClientState).jwt ≠ none ∧
    (RobotClientState.new.jwt = none ∧
     (stepJwt ⟨some "Bearer x"⟩ (.authOk "t")).jwt = some ("Bearer " ++ "t") ∧
     (stepJwt ⟨some "Bearer x"⟩ .sendReq).jwt ≠ none) :=
  ⟨by decide, jwt_lifecycle ⟨some "Bearer x"⟩ .sendReq "t" (by decide)⟩

/-- Claim C5: every built request carries method POST, the absolute
app.viam.com URI with the path appended, the content-type, te and
user-agent headers, and the authorization header exactly when a jwt was
stored at build time; in particular the Authenticate request built from
the fresh client state carries none. -/
theorem request_headers (jwt : Option String) (path : String) :
    (build_request jwt path).method = "POST" ∧
    (build_request jwt path).uri = "https://app.viam.com:443" ++ path ∧
    ⟨"content-type", "application/grpc"⟩ ∈ (build_request jwt path).headers ∧
    ⟨"te", "trailers"⟩ ∈ (build_request jwt path).headers ∧
    ⟨"user-agent", "esp32"⟩ ∈ (build_request jwt path).headers ∧
    hasHeader (build_request jwt path) "authorization" = jwt.isSome ∧
    hasHeader (build_request RobotClientState.new.jwt
      "/proto.rpc.v1.AuthService/Authenticate") "authorization" = false := by
  cases jwt <;> simp [build_request, hasHeader, RobotClientState.new]

/-- Claim C6: when starting the client task fails, main logs the failure
and still reaches the accept loop; when the Authenticate or Config
exchange fails, the client task logs the error while the main task trace
still serves connections for either start outcome; a failed Authenticate
leaves the jwt empty. -/
theorem cloud_failure_server_runs (notifyOk startOk hset : Bool) :
    (Ev.logClientStartError ∈ mainTrace false notifyOk ∧
     Ev.accept ∈ mainTrace false notifyOk ∧
     Ev.serveConnection ∈ mainTrace false notifyOk) ∧
    Ev.logClientError ∈ (clientEntryTrace .failAuth hset []).1 ∧
    Ev.logClientError ∈ (clientEntryTrace .failConfig hset []).1 ∧
    (Ev.accept ∈ mainTrace startOk notifyOk ∧
     Ev.serveConnection ∈ mainTrace startOk notifyOk) ∧
    (stepJwt RobotClientState.new .authFail).jwt = none := by
  cases notifyOk <;> cases startOk <;> cases hset <;> decide

/-- Claim C7: with no main handle set, after a successful bootstrap the
client loops on wait_notification with a 30 second timeout, one wait event
per cycle, and exits right after the cycle that delivers a notification;
with a main handle set, clientloop returns without any wait event. -/
theorem client_wait_loop (k v : Nat) (rest waits : List (Option Nat)) :
    (clientloopTrace .okBootstrap false
        (List.replicate k none ++ some v :: rest)).1 =
      bootstrapEvents .okBootstrap ++
        (List.replicate k (Ev.waitNotif 30 none) ++
          [Ev.waitNotif 30 (some v), Ev.logStopClient]) ∧
    (clientloopTrace .okBootstrap false
        (List.replicate k none ++ some v :: rest)).2 = true ∧
    (clientloopTrace .okBootstrap true waits).1.all
      (fun e => !(isWaitEv e)) = true ∧
    (clientloopTrace .okBootstrap true waits).2 = true := by
  refine ⟨?_, ?_, rfl, rfl⟩ <;>
    simp [clientloopTrace, waitLoop_replicate]

/-- Claim C9: whenever a main handle was set, the client task trace ends
with exactly one notify of value 0 followed by the task deletion, on the
success path and on every failure path alike, and no notify toward the main
task occurs earlier. -/
theorem exit_notify_zero (out : LoopOutcome) (waits : List (Option Nat)) :
    (clientEntryTrace out true waits).2 = true ∧
    ∃ pre, (clientEntryTrace out true waits).1 =
        pre ++ [Ev.notifyMain 0, Ev.taskDelete] ∧
      pre.all (fun e => !(isNotifyMainEv e)) = true := by
  cases out with
  | okBootstrap =>
    exact ⟨rfl, [.tlsOpen, .h2Handshake, .authExchange, .configExchange],
      rfl, rfl⟩
  | failTls => exact ⟨rfl, [.tlsOpen, .logClientError], rfl, rfl⟩
  | failHandshake =>
    exact ⟨rfl, [.tlsOpen, .h2Handshake, .logClientError], rfl, rfl⟩
  | failAuth =>
    exact ⟨rfl, [.tlsOpen, .h2Handshake, .authExchange, .logClientError],
      rfl, rfl⟩
  | failConfig =>
    exact ⟨rfl, [.tlsOpen, .h2Handshake, .authExchange, .configExchange,
      .logClientError], rfl, rfl⟩

/-- Claim C10: frame construction fails, and consequently nothing reaches
send_request, exactly when the encoded payload length does not fit in an
unsigned 32-bit integer; otherwise the single sent body carries the exact
big-endian length, never a truncated or wrapped one. -/
theorem frame_error_iff (jwt : Option String) (path : String) (p : List Nat) :
    ((requestFlow jwt path p).isOk ↔ p.length < 2 ^ 32) ∧
    requestFlow jwt path p =
      (if p.length < 2 ^ 32 then
        .ok [(build_request jwt path, 0 :: be32 p.length ++ p)]
      else .error "TryFromIntError") := by
  refine ⟨?_, requestFlow_eq jwt path p⟩
  rw [requestFlow_eq jwt path p]
  by_cases h : p.length < 2 ^ 32
  · rw [if_pos h]
    simpa [Except.isOk, Except.toBool] using h
  · rw [if_neg h]
    simpa [Except.isOk, Except.toBool] using h

/-- Claim C8, as stated, is false on the code: the registry the qemu build
constructs has exactly three entries and none of them is the motor named
m2. -/
theorem qemu_registry_cx :
    (resourceNames qemuRegistry).1.resources.length = 3 ∧
    qemuRegistry.all
      (fun p => !(p.1 = ⟨"rdk", "component", "motor", "m2"⟩)) = true := by
  decide

/-- Claim C8 amended: the qemu-build registry contains exactly the three
names motor m1, board b and base base, so a ResourceNames request returns
exactly those three names with grpc-status 0. -/
theorem qemu_resource_names :
    (resourceNames qemuRegistry).2 = 0 ∧
    (resourceNames qemuRegistry).1.resources =
      [⟨"rdk", "component", "motor", "m1"⟩,
        ⟨"rdk", "component", "board", "b"⟩,
        ⟨"rdk", "component", "base", "base"⟩] := by
  decide

end MicroRdk
